import Mathlib

/-!
Shallow embedding of `app.py`, a Streamlit text-to-SQL tool.

The embedded functions are:
  * `execute_sql_query` — the database executor (app.py lines 142-206),
    with external effects (connect / execute / commit / rollback) supplied
    by an outcome record and observable calls recorded as an event trace;
  * `get_table_metadata` — the Glue-catalog metadata fetch (lines 31-57);
  * `generate_prompt` / `generate_sql_query_io` — the Bedrock prompt
    construction and response handling (lines 59-140);
  * `mainSubmit` — the submit-button branch of `main` (lines 229-246).

Python-specific behaviour (truthiness, `dict` insertion order with
overwrite, `str.strip`, `json.dumps(..., indent=2)`) is modelled
explicitly by the `py*`/`json*` helpers.
-/

/-- Characters Python's `str.strip()` removes (ASCII whitespace set). -/
def pyIsSpace (c : Char) : Bool :=
  c = ' ' || c = '\t' || c = '\n' || c = '\x0d' || c = '\x0b' || c = '\x0c'

/-- Drop leading characters satisfying `pyIsSpace`. -/
def dropLeadingSpace : List Char → List Char
  | [] => []
  | c :: cs => if pyIsSpace c then dropLeadingSpace cs else c :: cs

/-- Python `str.strip()` on a character list: drop whitespace from both ends. -/
def pyStrip (s : List Char) : List Char :=
  (dropLeadingSpace (dropLeadingSpace s.reverse).reverse)

/-- Python `str.lower()` on a character list (ASCII lowering). -/
def pyLower (s : List Char) : List Char :=
  s.map Char.toLower

/-- Python truthiness of an optional string (`None` and `""` are falsy):
used for the connection parameters read from `SQL_SERVER_CONN`. -/
def pyTruthyStr : Option String → Bool
  | none => false
  | some s => !(s = "")

/-- Python `dict` assignment `d[k] = v`: overwrite in place if the key is
present, else append at the end (insertion order preserved). -/
def pyDictInsert {α : Type} (d : List (String × α)) (k : String) (v : α) :
    List (String × α) :=
  if d.any (fun p => p.1 = k) then
    d.map (fun p => if p.1 = k then (k, v) else p)
  else
    d ++ [(k, v)]

/-- Python `dict(pairs)` / a dict comprehension over a pair list: repeated
`pyDictInsert` starting from the empty dict. -/
def pyDictOfPairs {α : Type} (ps : List (String × α)) : List (String × α) :=
  ps.foldl (fun d kv => pyDictInsert d kv.1 kv.2) []

/-- `dict(zip(column_names, row))` from app.py line 190: Python `zip`
truncates to the shorter list, then the pairs are inserted in order. -/
def pyDictZip {α : Type} (cols : List String) (row : List α) :
    List (String × α) :=
  pyDictOfPairs (cols.zip row)

/-- `query.lower().strip().startswith(('insert', 'update', 'delete'))`
(app.py line 193). -/
def isMutation (query : String) : Bool :=
  let q := pyStrip (pyLower query.data)
  List.isPrefixOf ("insert".data) q || List.isPrefixOf ("update".data) q ||
    List.isPrefixOf ("delete".data) q

/-- A scalar value returned by the database driver. -/
inductive SqlValue : Type
  | intV (n : Int)
  | strV (s : String)
  | nullV
deriving DecidableEq

/-- One row of the marshalled result: a Python dict from column name to value. -/
abbrev PyDict := List (String × SqlValue)

/-- Observable calls made by `execute_sql_query` on the pymssql connection.
`execute`'s flag records whether the parametrised overload was used. -/
inductive Event : Type
  | connect
  | execute (withParams : Bool)
  | commit
  | rollback
  | close
deriving DecidableEq, BEq

/-- The connection parameters read from `SQL_SERVER_CONN` (app.py lines
158-161); each comes from `os.getenv` and may be absent. -/
structure ConnParams : Type where
  server : Option String
  database : Option String
  uid : Option String
  pwd : Option String
deriving DecidableEq

/-- `all([server, database, username, password])` (app.py line 164). -/
def connParamsOk (cp : ConnParams) : Bool :=
  pyTruthyStr cp.server && pyTruthyStr cp.database &&
    pyTruthyStr cp.uid && pyTruthyStr cp.pwd

/-- Outcomes of the external driver calls made by one run of
`execute_sql_query`: connection attempt, the execute/describe/fetch block
(succeeding with the descriptor's column names and the fetched rows, or
raising), commit, and rollback. An `Except.error` value is the message of
the exception the call raises. -/
structure DbOutcome : Type where
  connect : Except String Unit
  exec : Except String (List String × List (List SqlValue))
  commit : Except String Unit
  rollback : Except String Unit

/-- `if params: cursor.execute(query, params) else: cursor.execute(query)`
(app.py lines 178-181): which overload runs, by Python truthiness. -/
def usesParams (params : Option (List SqlValue)) : Bool :=
  match params with
  | none => false
  | some ps => !ps.isEmpty

/-- `execute_sql_query` (app.py lines 142-206). Returns the value the call
produces (`Except.error` = the exception propagated to the caller, with
its message) together with the trace of connection-level events.

Control flow mirrors the source: the missing-parameter `ValueError` and a
failed `pymssql.connect` are caught by the outer handler and re-wrapped
as `"Database connection error: ..."`; an inner failure triggers
`conn.rollback()` and a raise wrapped as `"Error executing query: ..."`
(itself re-wrapped by the outer handler); if the rollback itself raises,
its exception replaces the original one; `conn.close()` runs in the `finally`
block on every path once the connection exists; `conn.commit()` runs only
for mutating statements, and a failing commit is handled like any other
inner error. -/
def execute_sql_query (cp : ConnParams) (query : String)
    (params : Option (List SqlValue)) (oc : DbOutcome) :
    Except String (List PyDict) × List Event :=
  match connParamsOk cp with
  | false =>
    (Except.error ("Database connection error: Missing database connection parameters"), [])
  | true =>
    match oc.connect with
    | Except.error e =>
      (Except.error ("Database connection error: " ++ e), [])
    | Except.ok _ =>
      match oc.exec with
      | Except.error e =>
        match oc.rollback with
        | Except.ok _ =>
          (Except.error ("Database connection error: Error executing query: " ++ e),
           [Event.connect, Event.execute (usesParams params), Event.rollback, Event.close])
        | Except.error re =>
          (Except.error ("Database connection error: " ++ re),
           [Event.connect, Event.execute (usesParams params), Event.rollback, Event.close])
      | Except.ok (column_names, results) =>
        let results_with_columns := results.map (fun row => pyDictZip column_names row)
        match isMutation query with
        | true =>
          match oc.commit with
          | Except.ok _ =>
            (Except.ok results_with_columns,
             [Event.connect, Event.execute (usesParams params), Event.commit, Event.close])
          | Except.error ce =>
            match oc.rollback with
            | Except.ok _ =>
              (Except.error ("Database connection error: Error executing query: " ++ ce),
               [Event.connect, Event.execute (usesParams params), Event.commit, Event.rollback, Event.close])
            | Except.error re =>
              (Except.error ("Database connection error: " ++ re),
               [Event.connect, Event.execute (usesParams params), Event.commit, Event.rollback, Event.close])
        | false =>
          (Except.ok results_with_columns,
           [Event.connect, Event.execute (usesParams params), Event.close])

/-- A column descriptor in a Glue catalog table (`Name`, `Type`). -/
structure GlueColumn : Type where
  name : String
  colType : String
deriving DecidableEq

/-- A table descriptor from the Glue `get_tables` response: `Name`,
`StorageDescriptor.Columns`, and the optional `Description`. -/
structure GlueTable : Type where
  name : String
  columns : List GlueColumn
  description : Option String
deriving DecidableEq

/-- The per-table metadata record built by `get_table_metadata`
(app.py lines 45-49): column names in order, description (defaulting to
the empty string), and the column-name-to-type dict. -/
structure TableMeta : Type where
  columns : List String
  description : String
  column_types : List (String × String)
deriving DecidableEq

/-- `target_tables = ['xtstock2025']` (app.py line 41). -/
def target_tables : List String := ["xtstock2025"]

/-- The metadata value built for one catalog table (app.py lines 45-49). -/
def tableMetaOf (t : GlueTable) : TableMeta :=
  { columns := t.columns.map (fun c => c.name)
  , description := t.description.getD ("")
  , column_types := pyDictOfPairs (t.columns.map (fun c => (c.name, c.colType))) }

/-- UI effects shown by the fetch and generation steps. -/
inductive UiEvent : Type
  | warnShown
  | errorShown
deriving DecidableEq, BEq

/-- The body of `get_table_metadata` on a successful catalog response
(app.py lines 40-54): filter the response's `TableList` to the target
tables, building the metadata dict in response order, and emit the
"No target tables found" warning exactly when the dict ends up empty. -/
def get_table_metadata (tableList : List GlueTable) :
    List (String × TableMeta) × List UiEvent :=
  let metadata := tableList.foldl
    (fun md t =>
      if t.name ∈ target_tables then pyDictInsert md t.name (tableMetaOf t) else md)
    []
  (metadata, if metadata.isEmpty then [UiEvent.warnShown] else [])

/-- `get_table_metadata` with its external-call outcomes (app.py lines
31-57): `boto3.client('glue')` runs before the `try` block, so a failure
there propagates to the caller; a failure of `glue_client.get_tables`
inside the `try` is caught, an error is shown, and `None` is returned. -/
def get_table_metadata_io (client : Except String Unit)
    (fetch : Except String (List GlueTable)) :
    Except String (Option (List (String × TableMeta)) × List UiEvent) :=
  match client with
  | Except.error e => Except.error e
  | Except.ok _ =>
    match fetch with
    | Except.error _ => Except.ok (none, [UiEvent.errorShown])
    | Except.ok tableList =>
      Except.ok (some (get_table_metadata tableList).1, (get_table_metadata tableList).2)

/-- `.data` of a string literal, for building character-list text. -/
def strChars (s : String) : List Char := s.data

/-- The literal text of the prompt f-string before the
`json.dumps(metadata, indent=2)` interpolation (app.py lines 65-66). -/
def promptPart1 : List Char :=
  strChars ("Given the following database schema:\n        ")

/-- The literal text between the metadata interpolation and the
`natural_language_query` interpolation (app.py lines 66-69). -/
def promptPart2 : List Char :=
  strChars ("\n\n        Convert this natural language query to SQL:\n        ")

/-- The literal text after the query interpolation, up to the target table
name in rule 2 (app.py lines 69-73). -/
def promptTailA : List Char :=
  strChars ("\n\n        Rules:\n        1. Use proper SQL Server syntax.\n        2. Query from the `")

/-- The rest of the literal prompt text after the first occurrence of the
target table name (app.py lines 73-118). -/
def promptTailB : List Char :=
  strChars ("` table.\n        3. Use column names exactly as specified in the schema.\n        4. If filtering by date, use `stocksourcedate`.\n        5. If filtering by stock quantity, use `stockqty`.\n        6. Return only the SQL query without any explanation.\n        \n        Examples:\n\n        **Example 1:**\n        Natural language query: \"Get all stock details for category \x27Apparel\x27.\"\n        SQL Query:\n        ```\n        SELECT * FROM xtstock2025 WHERE category = \x27Apparel\x27;\n        ```\n\n        **Example 2:**\n        Natural language query: \"Find total stock quantity for site \x27AdhocFabric\x27.\"\n        SQL Query:\n        ```\n        SELECT SUM(stockqty) AS total_stock FROM xtstock2025 WHERE sitename = \x27AdhocFabric\x27;\n        ```\n\n        **Example 3:**\n        Natural language query: \"Show all red articles in size \x27M\x27 with stock greater than 10.\"\n        SQL Query:\n        ```\n        SELECT * FROM xtstock2025 \n        WHERE colorname = \x27Red\x27 AND sizename = \x27M\x27 AND stockqty > 10;\n        ```\n\n        **Example 4:**\n        Natural language query: \"Get stock value for \x27Blue\x27 articles older than 30 days.\"\n        SQL Query:\n        ```\n        SELECT SUM(stockvalue) AS total_stock_value FROM xtstock2025 \n        WHERE colorname = \x27Blue\x27 AND stockageindays > 30;\n        ```\n\n        **Example 5:**\n        Natural language query: \"Find stock added after January 1, 2024.\"\n        SQL Query:\n        ```\n        SELECT * FROM xtstock2025 WHERE stocksourcedate > \x272024-01-01\x27;\n        ```\n\n        Now generate the SQL query based on the given natural language query.")

/-- The fixed tail of the prompt: rules, examples, and the closing
instruction (app.py lines 69-118). It embeds the hard-coded target table
name `xtstock2025`. -/
def promptTail : List Char :=
  promptTailA ++ strChars ("xtstock2025") ++ promptTailB

/-- The `\x7b` character (JSON object opener). -/
def openBrace : Char := Char.ofNat 123

/-- The `\x7d` character (JSON object closer). -/
def closeBrace : Char := Char.ofNat 125

/-- A character `json.dumps` leaves unescaped: printable ASCII other than
the double quote and the backslash. -/
def jsonSafeChar (c : Char) : Bool :=
  if 0x20 ≤ c.toNat ∧ c.toNat ≤ 0x7e ∧ c ≠ '"' ∧ c ≠ '\\' then true else false

/-- One hexadecimal digit, lowercase, as produced by `json.dumps`. -/
def jsonHexDigit (n : Nat) : Char :=
  if n < 10 then Char.ofNat (48 + n) else Char.ofNat (87 + n)

/-- A `\uXXXX` escape for one UTF-16 code unit. -/
def jsonU16 (n : Nat) : List Char :=
  ['\\', 'u', jsonHexDigit (n / 4096 % 16), jsonHexDigit (n / 256 % 16),
   jsonHexDigit (n / 16 % 16), jsonHexDigit (n % 16)]

/-- How `json.dumps` (with its default `ensure_ascii=True`) renders one
character inside a string: quote and backslash are backslash-escaped,
printable ASCII passes through, the common control characters use their
short escapes, and everything else becomes `\uXXXX` (a surrogate pair
beyond the BMP). -/
def jsonEscapeChar (c : Char) : List Char :=
  if c = '"' then ['\\', '"']
  else if c = '\\' then ['\\', '\\']
  else if 0x20 ≤ c.toNat ∧ c.toNat ≤ 0x7e then [c]
  else if c = '\n' then ['\\', 'n']
  else if c = '\t' then ['\\', 't']
  else if c = '\x0d' then ['\\', 'r']
  else if c = '\x08' then ['\\', 'b']
  else if c = '\x0c' then ['\\', 'f']
  else if c.toNat < 0x10000 then jsonU16 c.toNat
  else jsonU16 (0xd800 + (c.toNat - 0x10000) / 1024) ++ jsonU16 (0xdc00 + (c.toNat - 0x10000) % 1024)

/-- Escape every character of a string body as `json.dumps` does. -/
def escapeChars : List Char → List Char
  | [] => []
  | c :: cs => jsonEscapeChar c ++ escapeChars cs

/-- A JSON string literal: escaped body between double quotes. -/
def jsonStr (s : String) : List Char :=
  '"' :: escapeChars s.data ++ ['"']

/-- `"\n"` followed by the indentation of `indent=2` at the given depth. -/
def nlIndent (depth : Nat) : List Char :=
  '\n' :: List.replicate (2 * depth) ' '

/-- Join character chunks with a separator (`json.dumps` item joining). -/
def joinSep (sep : List Char) : List (List Char) → List Char
  | [] => []
  | [l] => l
  | l :: ls => l ++ sep ++ joinSep sep ls

/-- `json.dumps` of a list of strings at `indent=2`: `[]` when empty, else
each element on its own indented line. -/
def jsonStrList (depth : Nat) (items : List String) : List Char :=
  match items with
  | [] => strChars ("[]")
  | _ :: _ =>
    strChars ("[") ++
      joinSep (strChars (",")) (items.map (fun s => nlIndent (depth + 1) ++ jsonStr s)) ++
      nlIndent depth ++ strChars ("]")

/-- `json.dumps` of a string-to-string dict at `indent=2`. -/
def jsonStrDict (depth : Nat) (entries : List (String × String)) : List Char :=
  match entries with
  | [] => [openBrace, closeBrace]
  | _ :: _ =>
    [openBrace] ++
      joinSep (strChars (","))
        (entries.map (fun kv => nlIndent (depth + 1) ++ jsonStr kv.1 ++ strChars (": ") ++ jsonStr kv.2)) ++
      nlIndent depth ++ [closeBrace]

/-- `json.dumps` of one table's metadata record at `indent=2`: the three
keys in their insertion order (`columns`, `description`, `column_types`). -/
def jsonTableMeta (depth : Nat) (tm : TableMeta) : List Char :=
  [openBrace] ++
    nlIndent (depth + 1) ++ jsonStr ("columns") ++ strChars (": ") ++
      jsonStrList (depth + 1) tm.columns ++ strChars (",") ++
    nlIndent (depth + 1) ++ jsonStr ("description") ++ strChars (": ") ++
      jsonStr tm.description ++ strChars (",") ++
    nlIndent (depth + 1) ++ jsonStr ("column_types") ++ strChars (": ") ++
      jsonStrDict (depth + 1) tm.column_types ++
  nlIndent depth ++ [closeBrace]

/-- The serialized form of one top-level metadata entry. -/
def jsonMetaEntry (kv : String × TableMeta) : List Char :=
  nlIndent 1 ++ jsonStr kv.1 ++ strChars (": ") ++ jsonTableMeta 1 kv.2

/-- `json.dumps(metadata, indent=2)` (app.py line 66) on the metadata
dict built by `get_table_metadata`. -/
def jsonDumpMetadata (metadata : List (String × TableMeta)) : List Char :=
  match metadata with
  | [] => [openBrace, closeBrace]
  | _ :: _ =>
    [openBrace] ++ joinSep (strChars (",")) (metadata.map jsonMetaEntry) ++
      nlIndent 0 ++ [closeBrace]

/-- The full user-message prompt built by `generate_sql_query`
(app.py lines 64-119): fixed template text with the serialized metadata
and the natural-language query interpolated. -/
def generate_prompt (metadata : List (String × TableMeta))
    (natural_language_query : String) : List Char :=
  promptPart1 ++ jsonDumpMetadata metadata ++ promptPart2 ++
    strChars natural_language_query ++ promptTail

/-- One element of the response body's `content` array: its `text`. -/
structure ModelMessage : Type where
  text : List Char
deriving DecidableEq

/-- `generate_sql_query`'s effectful skeleton (app.py lines 59-140):
`boto3.client("bedrock-runtime")` runs before the `try` block, so a
failure there propagates to the caller; inside the `try`, a failing
`invoke_model` (or body parse) is caught, errors are shown, and `None` is
returned; an empty `content` array makes `content[0]` raise, which the
same handler catches; otherwise the first completion's text is returned
stripped (`.strip()`, app.py line 134). -/
def generate_sql_query_io (client : Except String Unit)
    (invoke : Except String (List ModelMessage)) :
    Except String (Option (List Char) × List UiEvent) :=
  match client with
  | Except.error e => Except.error e
  | Except.ok _ =>
    match invoke with
    | Except.error _ => Except.ok (none, [UiEvent.errorShown, UiEvent.errorShown])
    | Except.ok content =>
      match content with
      | [] => Except.ok (none, [UiEvent.errorShown, UiEvent.errorShown])
      | m :: _ => Except.ok (some (pyStrip m.text), [])

/-- Observable steps of `main`'s submit branch (app.py lines 229-246). -/
inductive MainEvent : Type
  | attrErrorRaised
  | generateCalled
  | sqlDisplayed
  | executeCalled
  | resultsDisplayed
  | executeErrorRaised
deriving DecidableEq, BEq

/-- The submit branch of `main` (app.py lines 229-246). Inputs: whether
the button was pressed, the text-area content, the "Execute query after
generation" checkbox, the session state's `metadata` attribute (absent
unless something stored it — `main` itself never does), the value
`generate_sql_query` returns, and what `execute_sql_query` does.

`main` reads `st.session_state.metadata` (line 231): if the attribute is
missing this raises and nothing else runs. Otherwise
`generate_sql_query` is called unconditionally — there is no check that
the metadata is non-empty. Its result gates only the display/execute
steps (`if sql_query:`); a raising `execute_sql_query` propagates. -/
def mainSubmit (submit_button : Bool) (user_input : String)
    (execute_query : Bool) (sessionMetadata : Option (List (String × TableMeta)))
    (genResult : Option (List Char))
    (execResult : Except String (List PyDict)) : List MainEvent :=
  match submit_button && !(user_input = "") with
  | false => []
  | true =>
    match sessionMetadata with
    | none => [MainEvent.attrErrorRaised]
    | some _ =>
      match genResult with
      | none => [MainEvent.generateCalled]
      | some sql =>
        match sql.isEmpty with
        | true => [MainEvent.generateCalled]
        | false =>
          match execute_query with
          | false => [MainEvent.generateCalled, MainEvent.sqlDisplayed]
          | true =>
            match execResult with
            | Except.error _ =>
              [MainEvent.generateCalled, MainEvent.sqlDisplayed,
               MainEvent.executeCalled, MainEvent.executeErrorRaised]
            | Except.ok _ =>
              [MainEvent.generateCalled, MainEvent.sqlDisplayed,
               MainEvent.executeCalled, MainEvent.resultsDisplayed]

/-- C9: For every call to execute_sql_query in which any of the server,
database, username, or password connection parameters is missing, the
call raises a wrapped error and never opens a database connection or
executes the statement. -/
theorem execute_missing_params_raises (cp : ConnParams) (query : String)
    (params : Option (List SqlValue)) (oc : DbOutcome)
    (h : pyTruthyStr cp.server = false ∨ pyTruthyStr cp.database = false ∨
         pyTruthyStr cp.uid = false ∨ pyTruthyStr cp.pwd = false) :
    (execute_sql_query cp query params oc).1 =
      Except.error ("Database connection error: Missing database connection parameters") ∧
    (execute_sql_query cp query params oc).2 = [] := by
  have hcp : connParamsOk cp = false := by
    unfold connParamsOk
    rcases h with h | h | h | h <;> simp [h]
  simp [execute_sql_query, hcp]

/-- Witness for `execute_missing_params_raises` at a concrete input with
the password absent. -/
theorem execute_missing_params_raises_witness :
    (execute_sql_query ⟨some ("h"), some ("d"), some ("u"), none⟩ ("SELECT 1") none
        ⟨Except.ok (), Except.ok ([], []), Except.ok (), Except.ok ()⟩).1 =
      Except.error ("Database connection error: Missing database connection parameters") ∧
    (execute_sql_query ⟨some ("h"), some ("d"), some ("u"), none⟩ ("SELECT 1") none
        ⟨Except.ok (), Except.ok ([], []), Except.ok (), Except.ok ()⟩).2 = [] :=
  execute_missing_params_raises _ _ _ _ (Or.inr (Or.inr (Or.inr (by decide))))

/-- C1: For every call to execute_sql_query with a statement that is a
mutation (its text, lowercased and stripped, begins with insert, update,
or delete), when execution raises no error the connection's commit is
invoked exactly once and rollback is not invoked. -/
theorem execute_mutation_commits_once (cp : ConnParams) (query : String)
    (params : Option (List SqlValue)) (oc : DbOutcome) (res : List PyDict)
    (hmut : isMutation query = true)
    (hok : (execute_sql_query cp query params oc).1 = Except.ok res) :
    (execute_sql_query cp query params oc).2.count Event.commit = 1 ∧
    (execute_sql_query cp query params oc).2.count Event.rollback = 0 := by
  obtain ⟨conn, exec, com, rb⟩ := oc
  cases hb : usesParams params <;>
    cases hcp : connParamsOk cp <;>
    simp only [execute_sql_query, hcp, hmut, hb] at hok ⊢ <;>
    first
    | simp at hok
    | (cases conn with
       | error e => simp at hok
       | ok u =>
         cases exec with
         | error e => cases rb <;> simp at hok
         | ok pr =>
           obtain ⟨cols, rows⟩ := pr
           cases com with
           | error ce => cases rb <;> simp at hok
           | ok v => (simp only [List.count_cons, List.count_nil]; decide))

/-- Witness for `execute_mutation_commits_once` on a concrete successful
UPDATE statement. -/
theorem execute_mutation_commits_once_witness :
    (execute_sql_query ⟨some ("h"), some ("d"), some ("u"), some ("p")⟩
        ("UPDATE t SET x=1") none
        ⟨Except.ok (), Except.ok ([], []), Except.ok (), Except.ok ()⟩).2.count Event.commit = 1 ∧
    (execute_sql_query ⟨some ("h"), some ("d"), some ("u"), some ("p")⟩
        ("UPDATE t SET x=1") none
        ⟨Except.ok (), Except.ok ([], []), Except.ok (), Except.ok ()⟩).2.count Event.rollback = 0 :=
  execute_mutation_commits_once _ _ _ _ [] (by decide) (by rfl)

/-- C2: For every call to execute_sql_query in which a connection is
established and the statement's execution fails, rollback is invoked
exactly once, the connection is closed exactly once, and a wrapped error
is raised to the caller; the call never returns a silent empty result. -/
theorem execute_failure_rollback_close_wrapped (cp : ConnParams) (query : String)
    (params : Option (List SqlValue)) (oc : DbOutcome) (msg : String)
    (hcp : connParamsOk cp = true)
    (hconn : oc.connect = Except.ok ())
    (hexec : oc.exec = Except.error msg) :
    (execute_sql_query cp query params oc).2.count Event.rollback = 1 ∧
    (execute_sql_query cp query params oc).2.count Event.close = 1 ∧
    ∃ m, (execute_sql_query cp query params oc).1 =
      Except.error ("Database connection error: " ++ m) := by
  obtain ⟨conn, exec, com, rb⟩ := oc
  simp only at hconn hexec
  subst hconn hexec
  have hs : ("Database connection error: Error executing query: " : String) =
      ("Database connection error: ") ++ ("Error executing query: ") := by decide
  cases hb : usesParams params <;>
    cases rb with
    | ok u =>
      refine ⟨?_, ?_, ("Error executing query: " ++ msg), ?_⟩ <;>
        simp only [execute_sql_query, hcp, hb, List.count_cons, List.count_nil] <;>
        first
        | decide
        | rw [hs, String.append_assoc]
    | error re =>
      refine ⟨?_, ?_, re, ?_⟩ <;>
        simp only [execute_sql_query, hcp, hb, List.count_cons, List.count_nil] <;>
        decide

/-- Witness for `execute_failure_rollback_close_wrapped` on a concrete
failing statement. -/
theorem execute_failure_rollback_close_wrapped_witness :
    (execute_sql_query ⟨some ("h"), some ("d"), some ("u"), some ("p")⟩
        ("SELECT * FROM missing") none
        ⟨Except.ok (), Except.error ("Invalid object name"), Except.ok (), Except.ok ()⟩).2.count
        Event.rollback = 1 ∧
    (execute_sql_query ⟨some ("h"), some ("d"), some ("u"), some ("p")⟩
        ("SELECT * FROM missing") none
        ⟨Except.ok (), Except.error ("Invalid object name"), Except.ok (), Except.ok ()⟩).2.count
        Event.close = 1 ∧
    ∃ m, (execute_sql_query ⟨some ("h"), some ("d"), some ("u"), some ("p")⟩
        ("SELECT * FROM missing") none
        ⟨Except.ok (), Except.error ("Invalid object name"), Except.ok (), Except.ok ()⟩).1 =
      Except.error ("Database connection error: " ++ m) :=
  execute_failure_rollback_close_wrapped _ _ _ _ ("Invalid object name")
    (by decide) (by rfl) (by rfl)

/-- C5: For every call to execute_sql_query in which a database connection
is successfully established, the connection is closed on every exit path —
on normal return, on execution error, and on rollback failure alike. -/
theorem execute_closes_connection (cp : ConnParams) (query : String)
    (params : Option (List SqlValue)) (oc : DbOutcome)
    (hcp : connParamsOk cp = true)
    (hconn : oc.connect = Except.ok ()) :
    (execute_sql_query cp query params oc).2.count Event.close = 1 := by
  obtain ⟨conn, exec, com, rb⟩ := oc
  simp only at hconn
  subst hconn
  cases hb : usesParams params <;>
    cases hm : isMutation query <;>
    cases exec with
    | error e =>
      cases rb <;>
        simp only [execute_sql_query, hcp, hb, hm, List.count_cons, List.count_nil] <;>
        decide
    | ok pr =>
      obtain ⟨cols, rows⟩ := pr
      cases com <;> cases rb <;>
        simp only [execute_sql_query, hcp, hb, hm, List.count_cons, List.count_nil] <;>
        decide

/-- Witness for `execute_closes_connection` on a concrete run whose
rollback also fails. -/
theorem execute_closes_connection_witness :
    (execute_sql_query ⟨some ("h"), some ("d"), some ("u"), some ("p")⟩
        ("SELECT 1") none
        ⟨Except.ok (), Except.error ("boom"), Except.ok (),
         Except.error ("rollback failed")⟩).2.count Event.close = 1 :=
  execute_closes_connection _ _ _ _ (by decide) (by rfl)

/-- Inserting an absent key into a Python dict appends it at the end. -/
theorem pyDictInsert_of_not_mem {α : Type} (d : List (String × α)) (k : String) (v : α)
    (h : ∀ q ∈ d, q.1 ≠ k) : pyDictInsert d k v = d ++ [(k, v)] := by
  have hany : (d.any fun p => p.1 = k) = false := by
    rw [List.any_eq_false]
    intro q hq
    simpa using h q hq
  simp [pyDictInsert, hany]

/-- Folding `pyDictInsert` over pairs with pairwise-distinct keys, all
fresh for the accumulator, just appends the pairs in order. -/
theorem foldl_pyDictInsert_nodup {α : Type} (ps : List (String × α)) :
    ∀ acc : List (String × α),
      (ps.map Prod.fst).Nodup →
      (∀ p ∈ ps, ∀ q ∈ acc, q.1 ≠ p.1) →
      ps.foldl (fun d kv => pyDictInsert d kv.1 kv.2) acc = acc ++ ps := by
  induction ps with
  | nil => intro acc _ _; simp
  | cons hd tl ih =>
    intro acc hnd hfresh
    have hins : pyDictInsert acc hd.1 hd.2 = acc ++ [(hd.1, hd.2)] :=
      pyDictInsert_of_not_mem acc hd.1 hd.2
        (fun q hq => hfresh hd (List.mem_cons_self hd tl) q hq)
    have hnd' : (tl.map Prod.fst).Nodup := (List.nodup_cons.mp hnd).2
    have hhd : hd.1 ∉ tl.map Prod.fst := (List.nodup_cons.mp hnd).1
    have hfresh' : ∀ p ∈ tl, ∀ q ∈ acc ++ [(hd.1, hd.2)], q.1 ≠ p.1 := by
      intro p hp q hq
      rcases List.mem_append.mp hq with hq | hq
      · exact hfresh p (List.mem_cons_of_mem hd hp) q hq
      · have hq1 : q = (hd.1, hd.2) := by simpa using hq
        subst hq1
        intro hcontra
        exact hhd (hcontra ▸ List.mem_map_of_mem Prod.fst hp)
    calc (hd :: tl).foldl (fun d kv => pyDictInsert d kv.1 kv.2) acc
        = tl.foldl (fun d kv => pyDictInsert d kv.1 kv.2) (pyDictInsert acc hd.1 hd.2) := by
          simp [List.foldl_cons]
      _ = (acc ++ [(hd.1, hd.2)]) ++ tl := by rw [hins]; exact ih _ hnd' hfresh'
      _ = acc ++ hd :: tl := by simp

/-- `dict(pairs)` over pairs with pairwise-distinct keys is the pair list. -/
theorem pyDictOfPairs_nodup {α : Type} (ps : List (String × α))
    (h : (ps.map Prod.fst).Nodup) : pyDictOfPairs ps = ps := by
  have := foldl_pyDictInsert_nodup ps [] h (by intro p _ q hq; cases hq)
  simpa [pyDictOfPairs] using this

/-- `dict(zip(cols, row))` with distinct column names and a row of the
descriptor's width is exactly the zipped pair list. -/
theorem pyDictZip_eq_zip {α : Type} (cols : List String) (row : List α)
    (hnodup : cols.Nodup) (hlen : row.length = cols.length) :
    pyDictZip cols row = cols.zip row := by
  unfold pyDictZip
  apply pyDictOfPairs_nodup
  rw [List.map_fst_zip cols row (le_of_eq hlen.symm)]
  exact hnodup

/-- C6: For every call to execute_sql_query that returns normally, the
result is an ordered sequence with one element per fetched row, each
element a mapping from column name to value whose keys are exactly the
column names of the statement's result descriptor, paired with row values
in descriptor order. -/
theorem execute_result_rows_shape (cp : ConnParams) (query : String)
    (params : Option (List SqlValue)) (oc : DbOutcome)
    (cols : List String) (rows : List (List SqlValue)) (res : List PyDict)
    (hexec : oc.exec = Except.ok (cols, rows))
    (hnodup : cols.Nodup)
    (hlen : ∀ row ∈ rows, row.length = cols.length)
    (hok : (execute_sql_query cp query params oc).1 = Except.ok res) :
    res.length = rows.length ∧ res = rows.map (fun row => cols.zip row) := by
  obtain ⟨conn, exec, com, rb⟩ := oc
  simp only at hexec
  subst hexec
  have hres : res = rows.map (fun row => pyDictZip cols row) := by
    cases hcp : connParamsOk cp <;>
      simp only [execute_sql_query, hcp] at hok
    · cases hok
    · cases conn with
      | error e => cases hok
      | ok u =>
        cases hm : isMutation query <;> simp only [hm] at hok
        · simp only [Except.ok.injEq] at hok
          exact hok.symm
        · cases com with
          | ok v =>
            simp only [Except.ok.injEq] at hok
            exact hok.symm
          | error ce => cases rb <;> simp at hok
  have hmap : rows.map (fun row => pyDictZip cols row) =
      rows.map (fun row => cols.zip row) :=
    List.map_congr_left (fun row hrow => pyDictZip_eq_zip cols row hnodup (hlen row hrow))
  subst hres
  exact ⟨by simp, by rw [hmap]⟩

/-- Witness for `execute_result_rows_shape` on a concrete two-column,
one-row result set. -/
theorem execute_result_rows_shape_witness :
    ([[("category", SqlValue.strV ("Apparel")), ("stockqty", SqlValue.intV 10)]] : List PyDict).length =
      ([[SqlValue.strV ("Apparel"), SqlValue.intV 10]] : List (List SqlValue)).length ∧
    ([[("category", SqlValue.strV ("Apparel")), ("stockqty", SqlValue.intV 10)]] : List PyDict) =
      ([[SqlValue.strV ("Apparel"), SqlValue.intV 10]] : List (List SqlValue)).map
        (fun row => (["category", "stockqty"] : List String).zip row) :=
  execute_result_rows_shape ⟨some ("h"), some ("d"), some ("u"), some ("p")⟩
    ("SELECT category, stockqty FROM xtstock2025") none
    ⟨Except.ok (),
     Except.ok (["category", "stockqty"], [[SqlValue.strV ("Apparel"), SqlValue.intV 10]]),
     Except.ok (), Except.ok ()⟩
    ["category", "stockqty"] [[SqlValue.strV ("Apparel"), SqlValue.intV 10]]
    [[("category", SqlValue.strV ("Apparel")), ("stockqty", SqlValue.intV 10)]]
    (by rfl) (by decide) (by decide) (by rfl)

/-- Every entry of `pyDictInsert d k v` either has key `k` or was already
an entry of `d`. -/
theorem pyDictInsert_keys {α : Type} (d : List (String × α)) (k : String) (v : α)
    (q : String × α) (hq : q ∈ pyDictInsert d k v) : q.1 = k ∨ q ∈ d := by
  unfold pyDictInsert at hq
  split at hq
  · rcases List.mem_map.mp hq with ⟨p, hp, hpq⟩
    by_cases hk : p.1 = k
    · rw [if_pos hk] at hpq
      exact Or.inl (by rw [← hpq])
    · rw [if_neg hk] at hpq
      exact Or.inr (hpq ▸ hp)
  · rcases List.mem_append.mp hq with hq | hq
    · exact Or.inr hq
    · exact Or.inl (by simpa using congrArg Prod.fst (List.mem_singleton.mp hq))

/-- The metadata fold of `get_table_metadata` only ever stores keys from
`target_tables`. -/
theorem gtm_fold_all (ts : List GlueTable) :
    ∀ acc : List (String × TableMeta),
      (acc.all fun kv => target_tables.contains kv.1) = true →
      ((ts.foldl
          (fun md t =>
            if t.name ∈ target_tables then pyDictInsert md t.name (tableMetaOf t) else md)
          acc).all fun kv => target_tables.contains kv.1) = true := by
  induction ts with
  | nil => intro acc h; simpa using h
  | cons t ts ih =>
    intro acc h
    simp only [List.foldl_cons]
    by_cases ht : t.name ∈ target_tables
    · rw [if_pos ht]
      apply ih
      rw [List.all_eq_true] at h ⊢
      intro kv hkv
      rcases pyDictInsert_keys _ _ _ _ hkv with hk | hkv'
      · simpa [hk] using ht
      · exact h kv hkv'
    · rw [if_neg ht]
      exact ih acc h

/-- C7: For every catalog response, the metadata map returned by
get_table_metadata excludes every table not in the target table list, and
a warning is emitted exactly when the resulting map is empty. -/
theorem get_table_metadata_excludes_and_warns (tableList : List GlueTable) :
    ((get_table_metadata tableList).1.all fun kv => target_tables.contains kv.1) = true ∧
    ((get_table_metadata tableList).2.count UiEvent.warnShown = 1 ↔
      (get_table_metadata tableList).1 = []) := by
  constructor
  · simpa [get_table_metadata] using gtm_fold_all tableList [] (by decide)
  · simp only [get_table_metadata]
    cases hemp : (tableList.foldl
        (fun md t =>
          if t.name ∈ target_tables then pyDictInsert md t.name (tableMetaOf t) else md)
        []).isEmpty with
    | false =>
      simp only [hemp, Bool.false_eq_true, if_false, List.count_nil]
      constructor
      · intro h
        exact absurd h (by decide)
      · intro hnil
        rw [hnil] at hemp
        simp at hemp
    | true =>
      have hnil : (tableList.foldl
          (fun md t =>
            if t.name ∈ target_tables then pyDictInsert md t.name (tableMetaOf t) else md)
          []) = [] := by
        simpa using hemp
      simp [hemp, hnil]
      decide

/-- C3 (behaviour at the failing input): with an empty metadata map in the
session state, pressing submit with a non-empty question still invokes
generate_sql_query — `main` contains no gate on metadata emptiness (and
never populates the session metadata at all). -/
theorem main_generates_despite_empty_metadata :
    MainEvent.generateCalled ∈
      mainSubmit true ("show all stock") true (some [])
        (some (("SELECT 1").data)) (Except.ok []) := by
  have h : mainSubmit true ("show all stock") true (some [])
      (some (("SELECT 1").data)) (Except.ok []) =
      [MainEvent.generateCalled, MainEvent.sqlDisplayed,
       MainEvent.executeCalled, MainEvent.resultsDisplayed] := by rfl
  rw [h]
  exact List.mem_cons_self _ _

/-- C4 counterexample: a completion wrapped in markdown code fencing is
returned with the fencing intact — `.strip()` removes only whitespace, so
the ``` delimiters are present in the returned string. -/
theorem generate_keeps_markdown_fencing :
    generate_sql_query_io (Except.ok ())
        (Except.ok [⟨("```\nSELECT 1;\n```").data⟩]) =
      Except.ok (some (("```\nSELECT 1;\n```").data), []) ∧
    ("```").data <:+: ("```\nSELECT 1;\n```").data := by
  exact ⟨rfl, ⟨[], ("\nSELECT 1;\n```").data, by decide⟩⟩

/-- C4 (amended): for every successful model response with a nonempty
content array, generate_sql_query returns the first textual completion
stripped of surrounding whitespace; markdown fencing, if present in the
completion, is not removed. -/
theorem generate_returns_stripped_first (client : Except String Unit)
    (invoke : Except String (List ModelMessage)) (m : ModelMessage)
    (rest : List ModelMessage)
    (hc : client = Except.ok ())
    (hi : invoke = Except.ok (m :: rest)) :
    generate_sql_query_io client invoke = Except.ok (some (pyStrip m.text), []) := by
  subst hc hi
  rfl

/-- Witness for `generate_returns_stripped_first` on a concrete
whitespace-padded completion. -/
theorem generate_returns_stripped_first_witness :
    generate_sql_query_io (Except.ok ()) (Except.ok [⟨(" SELECT 2 ").data⟩]) =
      Except.ok (some (("SELECT 2").data), []) :=
  generate_returns_stripped_first _ _ ⟨(" SELECT 2 ").data⟩ [] rfl rfl

/-- C10 counterexample: a failure constructing the boto3 client happens
outside the try block of get_table_metadata and propagates to the caller,
so the function does raise for that external-call outcome. -/
theorem get_table_metadata_raises_without_client :
    get_table_metadata_io (Except.error ("Unable to locate credentials")) (Except.ok []) =
      Except.error ("Unable to locate credentials") := rfl

/-- C10 (amended): once SDK client construction succeeds, neither
get_table_metadata nor generate_sql_query raises: every outcome of the
try-guarded external call yields a normal return — the result, or None
after an error is displayed. -/
theorem guarded_fetch_and_generate_never_raise
    (fetch : Except String (List GlueTable))
    (invoke : Except String (List ModelMessage)) :
    (∃ v, get_table_metadata_io (Except.ok ()) fetch = Except.ok v) ∧
    (∃ w, generate_sql_query_io (Except.ok ()) invoke = Except.ok w) := by
  constructor
  · cases fetch with
    | error e => exact ⟨(none, [UiEvent.errorShown]), rfl⟩
    | ok tl => exact ⟨_, rfl⟩
  · cases invoke with
    | error e => exact ⟨_, rfl⟩
    | ok content =>
      cases content with
      | nil => exact ⟨_, rfl⟩
      | cons m rest => exact ⟨_, rfl⟩

/-- An infix of `y` is an infix of `a ++ y ++ b`. -/
theorem infix_extend (a b x y : List Char) (h : x <:+: y) : x <:+: a ++ y ++ b := by
  rcases h with ⟨s, t, hst⟩
  exact ⟨a ++ s, t ++ b, by rw [← hst]; simp [List.append_assoc]⟩

/-- A member chunk is an infix of the separator-joined concatenation. -/
theorem infix_joinSep_of_mem (sep : List Char) (ls : List (List Char)) (l : List Char)
    (h : l ∈ ls) : l <:+: joinSep sep ls := by
  induction ls with
  | nil => cases h
  | cons hd tl ih =>
    rcases List.mem_cons.mp h with rfl | h'
    · cases tl with
      | nil => exact ⟨[], [], by simp [joinSep]⟩
      | cons t2 tl2 =>
        exact ⟨[], sep ++ joinSep sep (t2 :: tl2), by simp [joinSep, List.append_assoc]⟩
    · cases tl with
      | nil => cases h'
      | cons t2 tl2 =>
        have hrec := ih h'
        have h2 : joinSep sep (hd :: t2 :: tl2) =
            (hd ++ sep) ++ joinSep sep (t2 :: tl2) ++ [] := by
          simp [joinSep, List.append_assoc]
        rw [h2]
        exact infix_extend _ _ _ _ hrec

/-- A JSON-safe character is rendered as itself. -/
theorem jsonEscapeChar_safe (c : Char) (h : jsonSafeChar c = true) :
    jsonEscapeChar c = [c] := by
  unfold jsonSafeChar at h
  split at h
  case isTrue hc =>
    obtain ⟨h1, h2, h3, h4⟩ := hc
    unfold jsonEscapeChar
    rw [if_neg h3, if_neg h4, if_pos ⟨h1, h2⟩]
  case isFalse => cases h

/-- A string of JSON-safe characters is rendered verbatim. -/
theorem escapeChars_eq_self (s : List Char) (h : ∀ c ∈ s, jsonSafeChar c = true) :
    escapeChars s = s := by
  induction s with
  | nil => rfl
  | cons c cs ih =>
    simp only [escapeChars]
    rw [jsonEscapeChar_safe c (h c (List.mem_cons_self c cs)),
        ih (fun d hd => h d (List.mem_cons_of_mem c hd))]
    rfl

/-- A JSON-safe string occurs verbatim inside its JSON string literal. -/
theorem data_infix_jsonStr (s : String) (h : ∀ c ∈ s.data, jsonSafeChar c = true) :
    s.data <:+: jsonStr s := by
  unfold jsonStr
  rw [escapeChars_eq_self s.data h]
  exact ⟨['"'], ['"'], by simp⟩

/-- A JSON-safe member of a string list occurs verbatim in the list's
serialization. -/
theorem data_infix_jsonStrList (depth : Nat) (items : List String) (col : String)
    (hmem : col ∈ items) (hsafe : ∀ c ∈ col.data, jsonSafeChar c = true) :
    col.data <:+: jsonStrList depth items := by
  cases items with
  | nil => cases hmem
  | cons i0 irest =>
    have h1 : nlIndent (depth + 1) ++ jsonStr col ∈
        (i0 :: irest).map (fun s => nlIndent (depth + 1) ++ jsonStr s) :=
      List.mem_map_of_mem _ hmem
    have h2 := infix_joinSep_of_mem (strChars (",")) _ _ h1
    have h3 : col.data <:+: nlIndent (depth + 1) ++ jsonStr col := by
      rcases data_infix_jsonStr col hsafe with ⟨s, t, hst⟩
      exact ⟨nlIndent (depth + 1) ++ s, t, by rw [← hst]; simp [List.append_assoc]⟩
    refine (h3.trans h2).trans ?_
    exact ⟨strChars ("["), nlIndent depth ++ strChars ("]"),
      by simp [jsonStrList, List.append_assoc]⟩

/-- The serialized column list occurs inside the serialized table record. -/
theorem jsonStrList_infix_jsonTableMeta (depth : Nat) (tm : TableMeta) :
    jsonStrList (depth + 1) tm.columns <:+: jsonTableMeta depth tm := by
  refine ⟨[openBrace] ++ nlIndent (depth + 1) ++ jsonStr ("columns") ++ strChars (": "), ?_, ?_⟩
  · exact strChars (",") ++
      nlIndent (depth + 1) ++ jsonStr ("description") ++ strChars (": ") ++
        jsonStr tm.description ++ strChars (",") ++
      nlIndent (depth + 1) ++ jsonStr ("column_types") ++ strChars (": ") ++
        jsonStrDict (depth + 1) tm.column_types ++
      nlIndent depth ++ [closeBrace]
  · simp [jsonTableMeta, List.append_assoc]

/-- A metadata entry's serialization occurs inside the full dump. -/
theorem jsonMetaEntry_infix_dump (metadata : List (String × TableMeta))
    (kv : String × TableMeta) (hmem : kv ∈ metadata) :
    jsonMetaEntry kv <:+: jsonDumpMetadata metadata := by
  cases metadata with
  | nil => cases hmem
  | cons k0 krest =>
    have h1 : jsonMetaEntry kv ∈ (k0 :: krest).map jsonMetaEntry :=
      List.mem_map_of_mem _ hmem
    have h2 := infix_joinSep_of_mem (strChars (",")) _ _ h1
    refine h2.trans ?_
    exact ⟨[openBrace], nlIndent 0 ++ [closeBrace],
      by simp [jsonDumpMetadata, List.append_assoc]⟩

/-- The metadata dump occurs inside the full prompt. -/
theorem dump_infix_prompt (metadata : List (String × TableMeta)) (query : String) :
    jsonDumpMetadata metadata <:+: generate_prompt metadata query :=
  ⟨promptPart1, promptPart2 ++ strChars query ++ promptTail,
    by simp [generate_prompt, List.append_assoc]⟩

/-- C8: For every valid metadata mapping, the prompt constructed by
generate_sql_query contains, as substrings, the exact target table name
and every column name present in the metadata (validity = the names
consist of characters `json.dumps` leaves unescaped). -/
theorem generate_prompt_contains_names
    (metadata : List (String × TableMeta)) (query : String)
    (tname : String) (tm : TableMeta)
    (hmem : (tname, tm) ∈ metadata)
    (col : String) (hcol : col ∈ tm.columns)
    (hsafe : ∀ c ∈ col.data, jsonSafeChar c = true) :
    strChars ("xtstock2025") <:+: generate_prompt metadata query ∧
    col.data <:+: generate_prompt metadata query := by
  constructor
  · exact ⟨promptPart1 ++ jsonDumpMetadata metadata ++ promptPart2 ++ strChars query ++
        promptTailA, promptTailB,
      by simp [generate_prompt, promptTail, List.append_assoc]⟩
  · have h1 : col.data <:+: jsonStrList 2 tm.columns :=
      data_infix_jsonStrList 2 tm.columns col hcol hsafe
    have h2 : jsonStrList 2 tm.columns <:+: jsonTableMeta 1 tm :=
      jsonStrList_infix_jsonTableMeta 1 tm
    have h3 : jsonTableMeta 1 tm <:+: jsonMetaEntry (tname, tm) :=
      ⟨nlIndent 1 ++ jsonStr tname ++ strChars (": "), [],
        by simp [jsonMetaEntry, List.append_assoc]⟩
    have h4 : jsonMetaEntry (tname, tm) <:+: jsonDumpMetadata metadata :=
      jsonMetaEntry_infix_dump metadata (tname, tm) hmem
    exact (((h1.trans h2).trans h3).trans h4).trans (dump_infix_prompt metadata query)

/-- Witness for `generate_prompt_contains_names` on a concrete
single-table, single-column metadata map. -/
theorem generate_prompt_contains_names_witness :
    strChars ("xtstock2025") <:+:
      generate_prompt [(("xtstock2025"),
        ⟨["category"], (""), [(("category"), ("string"))]⟩)] ("q") ∧
    ("category").data <:+:
      generate_prompt [(("xtstock2025"),
        ⟨["category"], (""), [(("category"), ("string"))]⟩)] ("q") :=
  generate_prompt_contains_names _ ("q") ("xtstock2025")
    ⟨["category"], (""), [(("category"), ("string"))]⟩
    (List.mem_singleton.mpr rfl) ("category")
    (List.mem_singleton.mpr rfl) (by decide)

/-- C6 counterexample: with a duplicate descriptor column name (e.g.
`SELECT category, category`), `dict(zip(column_names, row))` collapses
the duplicate key and keeps only the later value, so the returned
element's keys are not exactly the descriptor's column names and the
first column's value is dropped. -/
theorem execute_result_duplicate_columns :
    (execute_sql_query ⟨some ("h"), some ("d"), some ("u"), some ("p")⟩
        ("SELECT category, category FROM xtstock2025") none
        ⟨Except.ok (),
         Except.ok (["category", "category"], [[SqlValue.intV 1, SqlValue.intV 2]]),
         Except.ok (), Except.ok ()⟩).1 =
      Except.ok [[(("category"), SqlValue.intV 2)]] ∧
    ([(("category"), SqlValue.intV 2)] : PyDict) ≠
      (["category", "category"] : List String).zip [SqlValue.intV 1, SqlValue.intV 2] ∧
    ([(("category"), SqlValue.intV 2)] : PyDict).map Prod.fst ≠
      ["category", "category"] := by
  exact ⟨rfl, by decide, by decide⟩
